import Mathlib

/-!
Verification of the `scalar_types` Rust crate (src/lib.rs): an endianness-tagging
wrapper `Endian<T>` over fixed-size scalars, with a runtime native-endianness
probe, an in-place byte-reversal primitive, casting operations, a stream-read
helper and a lossy `unpack` accessor.

Embedding choices:
* A fixed-size scalar value is modelled by the sequence of its memory bytes in
  machine storage order (`Scalar := List Nat`); `size_of` is the list length.
  All operations of the crate act on raw memory bytes, so this is exactly the
  level the code works at.
* The machine's byte order is not knowable inside the logic; it enters the code
  only through the probe `get_native_endianness`, which inspects the memory
  image of the 16-bit value 0x1234. We therefore parameterize the probe (and
  everything calling it) by that 2-byte memory image `mach : List Nat`, and
  separately define `sharedMemoryArray o`, the image a machine of byte order
  `o` actually produces, to instantiate `mach` for concrete machines.
* The byte-reversal primitive (`endian_swap_unsafe` in the source, whose raw
  pointer cast is bounded by `size_of`) is byte-list reversal; it is named
  `endian_swap` here.
-/

namespace ScalarTypes

/-- Memory bytes of a fixed-size scalar, in machine storage order. -/
abbrev Scalar := List Nat

/-- Error enum of the crate: only variant is `UnknownArchitecture`. -/
inductive Error where
  | UnknownArchitecture
deriving DecidableEq

/-- The `Endian<T>` enum of the crate: a scalar tagged with a byte order. -/
inductive Endian (T : Type) where
  | Little (value : T)
  | Big (value : T)
  | Native (value : T)
deriving DecidableEq

/-- The two byte orders a conventional machine can have; used only to build
concrete memory images for the probe, not by the embedded code itself. -/
inductive ByteOrder where
  | little
  | big
deriving DecidableEq

/-- Memory image of a 16-bit value on a machine of byte order `o`:
low byte first on a little-endian machine, high byte first on a big-endian
machine. -/
def layoutU16 (o : ByteOrder) (v : Nat) : List Nat :=
  match o with
  | .little => [v % 256, v / 256 % 256]
  | .big => [v / 256 % 256, v % 256]

/-- The `SharedMemory` union of `get_native_endianness` holding `value = 0x1234`,
viewed through its `array` field: the memory image of 0x1234 on a machine of
byte order `o`. -/
def sharedMemoryArray (o : ByteOrder) : List Nat := layoutU16 o 0x1234

/-- The crate's `get_native_endianness`, parameterized by the memory image
`mach` of the 16-bit value 0x1234 on the executing machine. The source matches
on `endian_tester.array[0]`: `0x34 => Ok(Little(()))`, `0x12 => Ok(Big(()))`,
otherwise `Err(UnknownArchitecture)`. -/
def get_native_endianness (mach : List Nat) : Except Error (Endian Unit) :=
  if mach.headD 0 = 0x34 then .ok (.Little ())
  else if mach.headD 0 = 0x12 then .ok (.Big ())
  else .error .UnknownArchitecture

/-- The crate's `endian_swap_unsafe`: views the value's memory as a byte slice
of length `size_of` and reverses it in place, returning the copy. -/
def endian_swap (value : Scalar) : Scalar := value.reverse

/-- The crate's `Endian::new`: wrap a value as `Native`. -/
def Endian.new (value : Scalar) : Endian Scalar := .Native value

/-- The default value of a fixed-size scalar type of `n` bytes: all bytes zero
(`T::default()` for the scalar types the crate wraps). -/
def scalarDefault (n : Nat) : Scalar := List.replicate n 0

/-- The `read_exact` contract of `std::io::Read` as used by `from_stream`:
fill the whole buffer from the stream, or fail without producing data. The
stream is modelled by the list of bytes it can still yield. -/
def read_exact (buffer : Scalar) (stream : List Nat) : Option Scalar :=
  if buffer.length ≤ stream.length then some (stream.take buffer.length) else none

/-- The crate's `Endian::from_stream` for a payload type of `n` bytes:
allocate `T::default()`, view its memory as an `n`-byte buffer, `read_exact`
into it; `Err => None`, `Ok => Some(Native(value))`. -/
def Endian.from_stream (n : Nat) (stream : List Nat) : Option (Endian Scalar) :=
  let value := scalarDefault n
  match read_exact value stream with
  | none => none
  | some filled => some (.Native filled)

/-- The crate's `Endian::as_big`. -/
def Endian.as_big (mach : List Nat) (self : Endian Scalar) : Option Scalar :=
  match self with
  | .Little value => some (endian_swap value)
  | .Big value => some value
  | .Native value =>
    match get_native_endianness mach with
    | .error _ => none
    | .ok order =>
      match order with
      | .Little () => some (endian_swap value)
      | .Big () => some value
      | .Native () => none

/-- The crate's `Endian::as_little`. -/
def Endian.as_little (mach : List Nat) (self : Endian Scalar) : Option Scalar :=
  match self with
  | .Little value => some value
  | .Big value => some (endian_swap value)
  | .Native value =>
    match get_native_endianness mach with
    | .error _ => none
    | .ok order =>
      match order with
      | .Little () => some value
      | .Big () => some (endian_swap value)
      | .Native () => none

/-- The crate's `Endian::as_native`. -/
def Endian.as_native (mach : List Nat) (self : Endian Scalar) : Option Scalar :=
  match self with
  | .Little value =>
    match get_native_endianness mach with
    | .error _ => none
    | .ok order =>
      match order with
      | .Little () => some value
      | .Big () => some (endian_swap value)
      | .Native () => none
  | .Big value =>
    match get_native_endianness mach with
    | .error _ => none
    | .ok order =>
      match order with
      | .Little () => some (endian_swap value)
      | .Big () => some value
      | .Native () => none
  | .Native value => some value

/-- The crate's `Endian::cast`: dispatch on the requested order tag. -/
def Endian.cast (mach : List Nat) (self : Endian Scalar) (order : Endian Unit) :
    Option Scalar :=
  match order with
  | .Little () => Endian.as_little mach self
  | .Big () => Endian.as_big mach self
  | .Native () => Endian.as_native mach self

/-- The crate's `Endian::is_little`. -/
def Endian.is_little (self : Endian Scalar) : Bool :=
  match self with
  | .Little _ => true
  | .Big _ => false
  | .Native _ => false

/-- The crate's `Endian::is_big`. -/
def Endian.is_big (self : Endian Scalar) : Bool :=
  match self with
  | .Little _ => false
  | .Big _ => true
  | .Native _ => false

/-- The crate's `Endian::is_native`. -/
def Endian.is_native (self : Endian Scalar) : Bool :=
  match self with
  | .Little _ => false
  | .Big _ => false
  | .Native _ => true

/-- The crate's `Endian::unpack` for a payload type of `n` bytes: the
`as_native` result if it succeeds, `T::default()` otherwise. -/
def Endian.unpack (mach : List Nat) (n : Nat) (self : Endian Scalar) : Scalar :=
  match Endian.as_native mach self with
  | some value => value
  | none => scalarDefault n

/-- The derived `PartialEq` of `Endian<T>`: same variant and equal payloads. -/
def Endian.eqPartial (a b : Endian Scalar) : Bool :=
  match a, b with
  | .Little x, .Little y => x == y
  | .Big x, .Big y => x == y
  | .Native x, .Native y => x == y
  | _, _ => false

/-- The spec's `wrap(v, o)`: tag payload `v` with the order tag `o`. -/
def wrap (v : Scalar) (o : Endian Unit) : Endian Scalar :=
  match o with
  | .Little () => .Little v
  | .Big () => .Big v
  | .Native () => .Native v

/-- The spec's double-cast chain `wrap(v, o1).cast(o2).cast(o1)`: since `cast`
returns a bare scalar, the intermediate scalar is re-wrapped with the tag `o2`
it was just cast to before the second cast. -/
def castChain (mach : List Nat) (v : Scalar) (o1 o2 : Endian Unit) :
    Option Scalar :=
  match Endian.cast mach (wrap v o1) o2 with
  | none => none
  | some s => Endian.cast mach (wrap s o2) o1

/-- Whether resolving `self` to the order `order` consults the probe: the tag
is `Native` and the request is not, or the request is `Native` and the tag is
not. -/
def needsProbe (self : Endian Scalar) (order : Endian Unit) : Bool :=
  match order with
  | .Little () => Endian.is_native self
  | .Big () => Endian.is_native self
  | .Native () => !(Endian.is_native self)

/-- The probe gave neither `Little` nor `Big`: it errored, or (structurally
impossible) returned a `Native` tag. -/
def probeIndeterminate (mach : List Nat) : Bool :=
  match get_native_endianness mach with
  | .error _ => true
  | .ok (.Native ()) => true
  | .ok _ => false

/-! ### Helper lemmas -/

/-- The probe never returns a `Native` tag. -/
theorem probe_ne_native (mach : List Nat) :
    get_native_endianness mach ≠ .ok (.Native ()) := by
  unfold get_native_endianness
  split_ifs <;> simp

/-- The probe's three possible outcomes. -/
theorem probe_cases (mach : List Nat) :
    get_native_endianness mach = .ok (.Little ()) ∨
    get_native_endianness mach = .ok (.Big ()) ∨
    get_native_endianness mach = .error .UnknownArchitecture := by
  unfold get_native_endianness
  split_ifs <;> simp

/-- On a concrete little-endian machine the probe reports `Little`. -/
theorem probe_on_little :
    get_native_endianness (sharedMemoryArray .little) = .ok (.Little ()) := rfl

/-- On a concrete big-endian machine the probe reports `Big`. -/
theorem probe_on_big :
    get_native_endianness (sharedMemoryArray .big) = .ok (.Big ()) := rfl

/-! ### Claims -/

/-- C3: the probe writes 0x1234 into a 16-bit value; its memory image holds
the low byte 0x34 first on a little-endian machine and the high byte 0x12
first on a big-endian machine; the probe returns `Little` when the first byte
is 0x34, `Big` when it is 0x12, and `Err(UnknownArchitecture)` otherwise. -/
theorem get_native_endianness_spec (mach : List Nat) :
    sharedMemoryArray .little = [0x34, 0x12] ∧
    sharedMemoryArray .big = [0x12, 0x34] ∧
    get_native_endianness (sharedMemoryArray .little) = .ok (.Little ()) ∧
    get_native_endianness (sharedMemoryArray .big) = .ok (.Big ()) ∧
    (mach.headD 0 = 0x34 → get_native_endianness mach = .ok (.Little ())) ∧
    (mach.headD 0 = 0x12 → get_native_endianness mach = .ok (.Big ())) ∧
    (mach.headD 0 ≠ 0x34 → mach.headD 0 ≠ 0x12 →
      get_native_endianness mach = .error .UnknownArchitecture) := by
  refine ⟨by decide, by decide, rfl, rfl, ?_, ?_, ?_⟩
  · intro h
    unfold get_native_endianness
    rw [if_pos h]
  · intro h
    unfold get_native_endianness
    rw [if_neg (by rw [h]; decide), if_pos h]
  · intro h h12
    unfold get_native_endianness
    rw [if_neg h, if_neg h12]

/-- C3 witness: the probe at concrete inputs, including a byte image that
matches neither pattern. -/
theorem get_native_endianness_spec_witness :
    get_native_endianness [0x34, 0x12] = .ok (.Little ()) ∧
    get_native_endianness [0x12, 0x34] = .ok (.Big ()) ∧
    get_native_endianness [9, 9] = .error .UnknownArchitecture :=
  ⟨(get_native_endianness_spec [0x34, 0x12]).2.2.2.2.1 (by decide),
   (get_native_endianness_spec [0x12, 0x34]).2.2.2.2.2.1 (by decide),
   (get_native_endianness_spec [9, 9]).2.2.2.2.2.2 (by decide) (by decide)⟩

/-- C5: a cast whose requested order already matches the wrapper's tag returns
the payload unchanged and succeeds for every machine image, without consulting
the probe: `Little(v).as_little()`, `Big(v).as_big()` and `Native(v).as_native()`
all yield `Some v`. -/
theorem cast_matching_tag_id (mach : List Nat) (v : Scalar) :
    Endian.as_little mach (.Little v) = some v ∧
    Endian.as_big mach (.Big v) = some v ∧
    Endian.as_native mach (.Native v) = some v :=
  ⟨rfl, rfl, rfl⟩

/-- C7: the byte-reversal primitive is its own inverse for every scalar of
size 1 through 8 bytes. -/
theorem endian_swap_involutive (v : Scalar) (h1 : 1 ≤ v.length)
    (h8 : v.length ≤ 8) : endian_swap (endian_swap v) = v := by
  clear h1 h8
  simp [endian_swap]

/-- C7 witness: double reversal of a concrete 4-byte value. -/
theorem endian_swap_involutive_witness :
    endian_swap (endian_swap [1, 2, 3, 4]) = [1, 2, 3, 4] :=
  endian_swap_involutive [1, 2, 3, 4] (by decide) (by decide)

/-- C10: the derived equality on `Endian` wrappers is structural — two
wrappers are equal exactly when they carry the same tag and equal payloads;
`Little(v)`, `Big(v)`, `Native(v)` are pairwise unequal, even though on a
little-endian machine `Little(v)` and `Native(v)` cast to little identically. -/
theorem endian_eq_structural (x y : Endian Scalar) (v : Scalar) :
    (Endian.eqPartial x y = true ↔ x = y) ∧
    Endian.eqPartial (.Little v) (.Big v) = false ∧
    Endian.eqPartial (.Little v) (.Native v) = false ∧
    Endian.eqPartial (.Big v) (.Native v) = false ∧
    Endian.as_little (sharedMemoryArray .little) (.Little v) =
      Endian.as_little (sharedMemoryArray .little) (.Native v) := by
  refine ⟨?_, rfl, rfl, rfl, ?_⟩
  · cases x <;> cases y <;> simp [Endian.eqPartial]
  · show some v = Endian.as_little (sharedMemoryArray ByteOrder.little) (.Native v)
    unfold Endian.as_little
    rw [probe_on_little]

/-- C1: `as_little()` returns the payload unchanged on a `Little` wrapper, the
byte-reversed payload on a `Big` wrapper; on a `Native` wrapper it returns the
payload unchanged on a little-endian machine, the byte-reversed payload on a
big-endian machine, and is `None` exactly when the probe errored or reported a
(structurally unreachable) `Native` order. `as_big()` is symmetric with the
Little and Big roles swapped. -/
theorem as_little_as_big_directions (mach : List Nat) (v : Scalar) :
    Endian.as_little mach (.Little v) = some v ∧
    Endian.as_little mach (.Big v) = some (endian_swap v) ∧
    Endian.as_little (sharedMemoryArray .little) (.Native v) = some v ∧
    Endian.as_little (sharedMemoryArray .big) (.Native v) = some (endian_swap v) ∧
    (Endian.as_little mach (.Native v) = none ↔
      get_native_endianness mach = .error .UnknownArchitecture ∨
      get_native_endianness mach = .ok (.Native ())) ∧
    Endian.as_big mach (.Big v) = some v ∧
    Endian.as_big mach (.Little v) = some (endian_swap v) ∧
    Endian.as_big (sharedMemoryArray .little) (.Native v) = some (endian_swap v) ∧
    Endian.as_big (sharedMemoryArray .big) (.Native v) = some v ∧
    (Endian.as_big mach (.Native v) = none ↔
      get_native_endianness mach = .error .UnknownArchitecture ∨
      get_native_endianness mach = .ok (.Native ())) := by
  refine ⟨rfl, rfl, ?_, ?_, ?_, rfl, rfl, ?_, ?_, ?_⟩
  · unfold Endian.as_little
    rw [probe_on_little]
  · unfold Endian.as_little
    rw [probe_on_big]
  · unfold Endian.as_little
    rcases probe_cases mach with hp | hp | hp <;> rw [hp] <;> simp
  · unfold Endian.as_big
    rw [probe_on_little]
  · unfold Endian.as_big
    rw [probe_on_big]
  · unfold Endian.as_big
    rcases probe_cases mach with hp | hp | hp <;> rw [hp] <;> simp

/-- C1 witness: on a machine image matching neither probe pattern, both casts
of a `Native` wrapper are `None`. -/
theorem as_little_as_big_directions_witness :
    Endian.as_little [0, 0] (.Native [1, 2]) = none ∧
    Endian.as_big [0, 0] (.Native [1, 2]) = none :=
  ⟨(as_little_as_big_directions [0, 0] [1, 2]).2.2.2.2.1.mpr (Or.inl rfl),
   (as_little_as_big_directions [0, 0] [1, 2]).2.2.2.2.2.2.2.2.2.mpr (Or.inl rfl)⟩

/-- C2 counterexample: on a little-endian machine, with `v = [0, 1]` wrapped as
`Big`, the double cast through `Little` and back to `Big` yields the original
`[0, 1]`, while `as_native()` yields the byte-reversed `[1, 0]` — the claimed
equality fails. -/
theorem cast_roundtrip_native_counterexample :
    castChain (sharedMemoryArray .little) [0, 1] (.Big ()) (.Little ()) =
      some [0, 1] ∧
    Endian.as_native (sharedMemoryArray .little) (wrap [0, 1] (.Big ())) =
      some [1, 0] ∧
    castChain (sharedMemoryArray .little) [0, 1] (.Big ()) (.Little ()) ≠
      Endian.as_native (sharedMemoryArray .little) (wrap [0, 1] (.Big ())) := by
  decide

/-- C2 (amended): on either machine, for every payload and every pair of order
tags, the double cast `wrap(v, o1).cast(o2)`, re-wrapped as `o2`, `.cast(o1)`
recovers the original wrapped scalar `Some v` — the same scalar as the single
cast `wrap(v, o1).cast(o1)`, not in general as `wrap(v, o1).as_native()`. -/
theorem cast_roundtrip_recovers_original (o : ByteOrder) (v : Scalar)
    (o1 o2 : Endian Unit) :
    castChain (sharedMemoryArray o) v o1 o2 = some v ∧
    Endian.cast (sharedMemoryArray o) (wrap v o1) o1 = some v := by
  cases o <;> rcases o1 with ⟨⟨⟩⟩ | ⟨⟨⟩⟩ | ⟨⟨⟩⟩ <;>
    rcases o2 with ⟨⟨⟩⟩ | ⟨⟨⟩⟩ | ⟨⟨⟩⟩ <;>
    constructor <;>
    simp [castChain, wrap, Endian.cast, Endian.as_little, Endian.as_big,
      Endian.as_native, endian_swap, probe_on_little, probe_on_big]

/-- C4: a casting operation on a wrapper is `None` exactly when it had to
resolve the `Native` order (the tag is `Native` and the request is not, or the
request is `Native` and the tag is not) and the probe was indeterminate; a cast
that never consults the probe never fails. -/
theorem cast_none_iff_probe (mach : List Nat) (v : Scalar) (tag o : Endian Unit) :
    Endian.cast mach (wrap v tag) o = none ↔
      needsProbe (wrap v tag) o = true ∧ probeIndeterminate mach = true := by
  rcases tag with ⟨⟨⟩⟩ | ⟨⟨⟩⟩ | ⟨⟨⟩⟩ <;> rcases o with ⟨⟨⟩⟩ | ⟨⟨⟩⟩ | ⟨⟨⟩⟩ <;>
    rcases probe_cases mach with hp | hp | hp <;>
    simp [Endian.cast, wrap, Endian.as_little, Endian.as_big, Endian.as_native,
      needsProbe, Endian.is_native, probeIndeterminate, hp]

/-- C4 witness: with an indeterminate probe, casting a `Native` wrapper to
little is `None`. -/
theorem cast_none_iff_probe_witness :
    Endian.cast [0, 0] (wrap [1, 2] (.Native ())) (.Little ()) = none :=
  (cast_none_iff_probe [0, 0] [1, 2] (.Native ()) (.Little ())).mpr ⟨rfl, rfl⟩

/-- C6: on either machine, `Native(v).as_little()` and `Native(v).as_big()`
both succeed and each is the byte reversal of the other; for a single-byte
payload the two results are equal. -/
theorem native_casts_swap_related (o : ByteOrder) (v : Scalar) :
    ∃ a b, Endian.as_little (sharedMemoryArray o) (.Native v) = some a ∧
      Endian.as_big (sharedMemoryArray o) (.Native v) = some b ∧
      b = endian_swap a ∧ a = endian_swap b ∧
      (v.length = 1 → a = b) := by
  cases o
  · refine ⟨v, endian_swap v, ?_, ?_, rfl, by simp [endian_swap], ?_⟩
    · unfold Endian.as_little
      rw [probe_on_little]
    · unfold Endian.as_big
      rw [probe_on_little]
    · intro h
      obtain ⟨x, rfl⟩ := List.length_eq_one.mp h
      rfl
  · refine ⟨endian_swap v, v, ?_, ?_, by simp [endian_swap], rfl, ?_⟩
    · unfold Endian.as_little
      rw [probe_on_big]
    · unfold Endian.as_big
      rw [probe_on_big]
    · intro h
      obtain ⟨x, rfl⟩ := List.length_eq_one.mp h
      rfl

/-- C6 witness: for a single-byte payload on a little-endian machine, the two
casts agree. -/
theorem native_casts_swap_related_witness :
    Endian.as_little (sharedMemoryArray .little) (.Native [5]) =
      Endian.as_big (sharedMemoryArray .little) (.Native [5]) := by
  obtain ⟨a, b, h1, h2, _, _, h5⟩ := native_casts_swap_related .little [5]
  rw [h1, h2, h5 rfl]

/-- C8: `from_stream` for an `n`-byte payload yields `None` exactly when the
source holds fewer than `n` bytes; when the source holds at least `n` bytes it
yields exactly the first `n` bytes wrapped as `Native`; a successful result is
never `Little`- or `Big`-tagged. -/
theorem from_stream_spec (n : Nat) (stream : List Nat) :
    (Endian.from_stream n stream = none ↔ stream.length < n) ∧
    (n ≤ stream.length →
      Endian.from_stream n stream = some (.Native (stream.take n))) ∧
    (∀ w, Endian.from_stream n stream = some w → Endian.is_native w = true) := by
  unfold Endian.from_stream read_exact
  simp only [scalarDefault, List.length_replicate]
  refine ⟨?_, ?_, ?_⟩
  · split_ifs with h
    · simp
      omega
    · simp
      omega
  · intro h
    rw [if_pos h]
  · intro w hw
    split_ifs at hw with h
    simp only [Option.some.injEq] at hw
    rw [← hw]
    rfl

/-- C8 witness: a short read (2 bytes available, 4 required) yields `None`; a
full read yields the bytes wrapped as `Native`. -/
theorem from_stream_spec_witness :
    Endian.from_stream 4 [0, 1] = none ∧
    Endian.from_stream 4 [2, 0, 0, 0] = some (.Native [2, 0, 0, 0]) :=
  ⟨(from_stream_spec 4 [0, 1]).1.mpr (by decide),
   (from_stream_spec 4 [2, 0, 0, 0]).2.1 (by decide)⟩

/-- C9: `unpack()` returns exactly the scalar produced by `as_native()` when
that cast succeeds, and the payload type's default (all-zero) value when it
fails; it is total and never signals an error. -/
theorem unpack_spec (mach : List Nat) (n : Nat) (self : Endian Scalar)
    (v : Scalar) :
    (Endian.as_native mach self = some v → Endian.unpack mach n self = v) ∧
    (Endian.as_native mach self = none →
      Endian.unpack mach n self = scalarDefault n) := by
  unfold Endian.unpack
  constructor
  · intro h
    rw [h]
  · intro h
    rw [h]

/-- C9 witness: `unpack` passes through a successful `as_native`, and yields
the all-zero default when the probe makes `as_native` fail. -/
theorem unpack_spec_witness :
    Endian.unpack [0x34, 0x12] 2 (.Native [7, 8]) = [7, 8] ∧
    Endian.unpack [0, 0] 2 (.Little [7, 8]) = scalarDefault 2 :=
  ⟨(unpack_spec [0x34, 0x12] 2 (.Native [7, 8]) [7, 8]).1 rfl,
   (unpack_spec [0, 0] 2 (.Little [7, 8]) [7, 8]).2 rfl⟩

end ScalarTypes
